import Mathlib

/-!
Verification of the opencode debug-plugin core (`src/index.ts`): session
lifecycle (debug_start / debug_stop / debug_clear / debug_read), the debug
HTTP server's fetch handler, the log store (`appendToLog`), port allocation
(`findAvailablePort`) and the tunnel manager (`startTunnel`).

The embedding is shallow: JavaScript values are `JsValue` (numbers restricted
to integer-valued JSON numbers, which is all the claims exercise), the
filesystem state of the single log file is `Option String` (`none` = the file
does not exist), module-level mutable state is the record `PluginState`
threaded explicitly, and the impure boundaries (wall clock timestamp, port
probe, ephemeral bind, ngrok service) are parameters/oracles in `Env`.
Fallible operations return `Except`.
-/

/-- JSON-like JavaScript values. `num` carries integer-valued numbers only
(the subset of JSON numbers the claims exercise); there is no `undefined`
constructor — an absent value is `Option.none` wherever the source
distinguishes `undefined`. -/
inductive JsValue where
  | null
  | bool (b : Bool)
  | num (n : Int)
  | str (s : String)
  | arr (elems : List JsValue)
  | obj (fields : List (String × JsValue))

/-- JavaScript truthiness of a value (no NaN: JSON cannot express it). -/
def truthy : JsValue → Bool
  | .null => false
  | .bool b => b
  | .num n => n != 0
  | .str s => s != ""
  | .arr _ => true
  | .obj _ => true

/-- Truthiness of a possibly-`undefined` value (`undefined` is falsy). -/
def truthyOpt : Option JsValue → Bool
  | none => false
  | some v => truthy v

def lookupField : List (String × JsValue) → String → Option JsValue
  | [], _ => none
  | (k, v) :: rest, key => if k = key then some v else lookupField rest key

/-- JavaScript property access `v[key]`: `undefined` (`none`) on non-objects
and missing keys. (Access on `null` would throw in JS, but every such access
in the source is short-circuited behind a truthiness check.) -/
def getProp : JsValue → String → Option JsValue
  | .obj fields, key => lookupField fields key
  | _, _ => none

/-- The JavaScript nullish-coalescing operator `a ?? b` on optional strings. -/
def coalesce (a b : Option String) : Option String :=
  match a with
  | some v => some v
  | none => b

/-- JSON string escaping for the common ASCII escapes produced by
`JSON.stringify`. -/
def escapeJsonChar (c : Char) : String :=
  if c = '"' then "\\\""
  else if c = '\\' then "\\\\"
  else if c = '\n' then "\\n"
  else if c = '\r' then "\\r"
  else if c = '\t' then "\\t"
  else String.singleton c

def escapeJsonString (s : String) : String :=
  String.join (s.data.map escapeJsonChar)

mutual

/-- `JSON.stringify` on defined values (no `undefined` can occur inside a
`JsValue`). -/
def jsonSerialize : JsValue → String
  | .null => "null"
  | .bool true => "true"
  | .bool false => "false"
  | .num n => toString n
  | .str s => "\"" ++ escapeJsonString s ++ "\""
  | .arr elems => "[" ++ jsonSerializeElems elems ++ "]"
  | .obj fields => "\x7b" ++ jsonSerializeFields fields ++ "\x7d"

def jsonSerializeElems : List JsValue → String
  | [] => ""
  | [v] => jsonSerialize v
  | v :: rest => jsonSerialize v ++ "," ++ jsonSerializeElems rest

def jsonSerializeFields : List (String × JsValue) → String
  | [] => ""
  | [(k, v)] => "\"" ++ escapeJsonString k ++ "\":" ++ jsonSerialize v
  | (k, v) :: rest =>
      "\"" ++ escapeJsonString k ++ "\":" ++ jsonSerialize v ++ ","
        ++ jsonSerializeFields rest

end

mutual

/-- JavaScript `ToString` as used by template literals: numbers print
decimally, arrays join with commas (with `null` elements contributing
the empty string), plain objects print `[object Object]`. -/
def jsToString : JsValue → String
  | .null => "null"
  | .bool true => "true"
  | .bool false => "false"
  | .num n => toString n
  | .str s => s
  | .arr elems => jsArrayJoin elems
  | .obj _ => "[object Object]"

def jsArrayJoin : List JsValue → String
  | [] => ""
  | [.null] => ""
  | [v] => jsToString v
  | .null :: rest => "," ++ jsArrayJoin rest
  | v :: rest => jsToString v ++ "," ++ jsArrayJoin rest

end

/-- One formatted log line, from `appendToLog` in src/index.ts: the label is
stringified by the template literal; data is appended as
` | <JSON.stringify(data)>` only when it is not `undefined`. The line is
newline-terminated. -/
def appendLine (timestamp : String) (label : JsValue) (data : Option JsValue) :
    String :=
  match data with
  | some d =>
      "[" ++ timestamp ++ "] " ++ jsToString label ++ " | " ++ jsonSerialize d
        ++ "\n"
  | none => "[" ++ timestamp ++ "] " ++ jsToString label ++ "\n"

/-- Sequential (non-interleaved) effect of `appendToLog` on the log file:
read the existing content (empty if the file is absent) and write it back
with the new line at the end. -/
def appendToLog (fs : Option String) (timestamp : String) (label : JsValue)
    (data : Option JsValue) : Option String :=
  some ((fs.getD "") ++ appendLine timestamp label data)

structure PluginConfig where
  endpoint : String
  healthEndpoint : String
  logDir : String
  logFileName : String
  authProvider : String
  authLabel : String
  authPromptMessage : String

def defaultConfig : PluginConfig :=
  ⟨"/debug", "/health", ".opencode", "debug.log", "ngrok",
    "Configure Ngrok Token", "Enter your Ngrok Authtoken"⟩

/-- `const config = { ...defaultConfig }` — never mutated in the source. -/
def config : PluginConfig := defaultConfig

structure HttpRequest where
  method : String
  path : String
  /-- Result of `req.json().catch(() => null)` for the ingest route:
  `none` models a body that fails to parse as JSON (the source maps it to
  `null`, see `serverFetch`). -/
  body : Option JsValue

structure HttpResponse where
  status : Nat
  body : String
  headers : List (String × String)
deriving DecidableEq, Repr

/-- `jsonResponse` from src/index.ts: serialize and tag as JSON. -/
def jsonResponse (data : JsValue) (status : Nat) : HttpResponse :=
  ⟨status, jsonSerialize data, [("Content-Type", "application/json")]⟩

/-- `new Response(body, { status })` with no explicitly set headers. -/
def plainTextResponse (body : String) (status : Nat) : HttpResponse :=
  ⟨status, body, []⟩

/-- The fetch handler of `createDebugServer`, with the log-file state
threaded: returns the response and the new file state (an append happens
exactly on the successful-ingest path). The chained truthiness test
`!body || !body.label` is rendered as the equivalent cascade below
(a falsy parsed body can never be an object, so `body.label` is only read
on truthy bodies, as in the source's short-circuit). -/
def serverFetch (timestamp : String) (req : HttpRequest) (fs : Option String) :
    HttpResponse × Option String :=
  if req.path = config.healthEndpoint ∧ req.method = "GET" then
    (jsonResponse (.obj [("status", .str "ok")]) 200, fs)
  else if req.path = config.endpoint ∧ req.method = "POST" then
    let body := req.body.getD .null
    if truthy body = false then
      (plainTextResponse "Missing required field: label" 400, fs)
    else
      match getProp body "label" with
      | none => (plainTextResponse "Missing required field: label" 400, fs)
      | some label =>
        if truthy label = false then
          (plainTextResponse "Missing required field: label" 400, fs)
        else
          (jsonResponse (.obj [("received", .bool true)]) 200,
            appendToLog fs timestamp label (getProp body "data"))
  else
    (plainTextResponse "Not found" 404, fs)

def buildDebugUrl (baseUrl : String) : String :=
  baseUrl ++ config.endpoint

/-- Outcome of `ngrok.forward({ addr, authtoken })` at the service boundary:
a listener whose `url()` is the given string, a listener with no URL, or a
rejected promise (authentication failure / service unreachable). -/
inductive TunnelService where
  | ok (url : String)
  | noUrl
  | failure
deriving DecidableEq

/-- The impure boundary of a session start: the `NGROK_AUTHTOKEN` environment
variable, the `isPortInUse` connect probe, the result of binding an ephemeral
port (`Bun.serve({ port: 0 })`), and the tunnel service behaviour. -/
structure Env where
  envToken : Option String
  busy : Nat → Bool
  ephemeral : Except Unit Nat
  svc : TunnelService

/-- `isPortInUse`: a successful TCP connect to `127.0.0.1:port` means busy;
a connection error means free. Pure oracle at the socket boundary. -/
def isPortInUse (env : Env) (port : Nat) : Bool :=
  env.busy port

/-- `findAvailablePort`: return `preferred` when given and not in use,
otherwise fall through to ephemeral allocation, whose own failure is the
only error. -/
def findAvailablePort (env : Env) (preferred : Option Nat) : Except Unit Nat :=
  match preferred with
  | some p => if isPortInUse env p = false then .ok p else env.ephemeral
  | none => env.ephemeral

structure ServerHandle where
  port : Nat
deriving DecidableEq, Repr

structure Tunnel where
  url : String
deriving DecidableEq, Repr

/-- The module-level mutable state of src/index.ts: `server`, `tunnel`,
`debugModeActive`, `activeDebugUrl`, `storedNgrokToken`, plus the content of
the single log file at `LOG_PATH` (`none` = not created yet). -/
structure PluginState where
  server : Option ServerHandle
  tunnel : Option Tunnel
  debugModeActive : Bool
  activeDebugUrl : Option String
  storedNgrokToken : Option String
  fs : Option String
deriving DecidableEq, Repr

/-- `startTunnel`: `token = process.env.NGROK_AUTHTOKEN ?? authtoken`; with no
token return `null` immediately (before any service call); otherwise the
service call either rejects (propagated), yields no URL (`null`), or yields a
URL that is recorded in the module `tunnel` variable. -/
def startTunnel (env : Env) (_port : Nat) (authtoken : Option String)
    (s : PluginState) : Except Unit (Option String × PluginState) :=
  match coalesce env.envToken authtoken with
  | none => .ok (none, s)
  | some _ =>
    match env.svc with
    | .failure => .error ()
    | .noUrl => .ok (none, s)
    | .ok url =>
        if url = "" then .ok (none, s)
        else .ok (some url, { s with tunnel := some ⟨url⟩ })

/-- `stopServer`: close the tunnel (errors swallowed) and null it, then stop
the server and null it. It never touches the log file. -/
def stopServer (s : PluginState) : PluginState :=
  let s1 :=
    match s.tunnel with
    | some _ => { s with tunnel := none }
    | none => s
  match s1.server with
  | some _ => { s1 with server := none }
  | none => s1

def getLogDisplayPath : String :=
  config.logDir ++ "/" ++ config.logFileName

/-- `getLogPath(directory)`. -/
def getLogPath (directory : String) : String :=
  directory ++ "/" ++ config.logDir ++ "/" ++ config.logFileName

def localUrlOf (port : Nat) : String :=
  buildDebugUrl ("http://localhost:" ++ toString port)

/-- `publicUrl ?? localUrl` as computed in `debug_start` and `debug_status`:
the tunnel URL is used only when the tunnel exists and its URL is truthy. -/
def effectiveUrl (srv : ServerHandle) (tn : Option Tunnel) : String :=
  match tn with
  | some t => if t.url != "" then buildDebugUrl t.url else localUrlOf srv.port
  | none => localUrlOf srv.port

def generateFetchSnippet (url : String) (label : String) (dataExpr : String) :
    String :=
  "fetch(\"" ++ url ++ "\", \x7b method: \"POST\", headers: \x7b \"Content-Type\": \"application/json\" \x7d, body: JSON.stringify(\x7b label: \"" ++ label ++ "\", data: " ++ dataExpr ++ " \x7d) \x7d).catch(() => \x7b\x7d);"

/-- The early-return message of `debug_start` when a server already exists. -/
def alreadyRunningMessage (url : String) : String :=
  "Debug server already running!\n\nDebug URL: " ++ url ++ "\n\n**Next Step:** Insert fetch() calls in the code where you need to capture data, then ask the user to reproduce the issue."

/-- The instruction text returned by a fresh `debug_start`. -/
def startInstructions (url : String) : String :=
  String.intercalate "\n"
    [ "# Debug Mode Started\n",
      "**Debug URL:** " ++ url,
      "**Log File:** " ++ getLogDisplayPath,
      "",
      "## Next Steps:",
      "1. **Instrument the code** - Insert fetch() calls at key locations",
      "2. **Hand back to user** - Ask them to reproduce the issue",
      "3. **Read logs** - Use debug_read to analyze captured data",
      "",
      "## Fetch Call Template:",
      "```javascript",
      generateFetchSnippet url "label-here" "\x7b key: value \x7d",
      "```",
      "",
      "## Placement Guidelines:",
      "- Function entry/exit points",
      "- Before/after async operations",
      "- Inside catch blocks for errors",
      "- State changes and variable mutations",
      "- Conditional branches to trace control flow",
      "",
      "Use descriptive labels like \x27handleSubmit-entry\x27, \x27api-response\x27, \x27error-caught\x27" ]

inductive StartError where
  | portFailure
  | tunnelFailure
deriving DecidableEq, Repr

/-- `debug_start.execute`: if a server exists, return the current effective
URL and change nothing; otherwise allocate a port, create the server, attempt
the tunnel (an exception there propagates, leaving the just-created server in
the module state), compute `publicUrl ?? localUrl`, set the mode flags and
return the instructions. Errors carry the module state at the throw point. -/
def debug_start (env : Env) (argPort : Option Nat) (s : PluginState) :
    Except (StartError × PluginState) (String × PluginState) :=
  match s.server with
  | some srv => .ok (alreadyRunningMessage (effectiveUrl srv s.tunnel), s)
  | none =>
    match findAvailablePort env argPort with
    | .error _ => .error (.portFailure, s)
    | .ok port =>
      let s1 := { s with server := some ⟨port⟩ }
      let localUrl := localUrlOf port
      let token := coalesce env.envToken s.storedNgrokToken
      match startTunnel env port token s1 with
      | .error _ => .error (.tunnelFailure, s1)
      | .ok (tunnelUrl, s2) =>
        let publicUrl :=
          match tunnelUrl with
          | some u => if u != "" then some (buildDebugUrl u) else none
          | none => none
        let url := publicUrl.getD localUrl
        let s3 := { s2 with debugModeActive := true, activeDebugUrl := some url }
        .ok (startInstructions url, s3)

def stoppedMessage : String :=
  String.intercalate "\n"
    [ "# Debug Mode Stopped",
      "",
      "Log file preserved at: " ++ getLogDisplayPath,
      "",
      "**Remember:** Remove the fetch() debug calls you inserted in the codebase." ]

/-- `debug_stop.execute`: no-op message when no server exists; otherwise tear
down tunnel and server and clear the mode flags. Returns (message, state). -/
def debug_stop (s : PluginState) : String × PluginState :=
  match s.server with
  | none => ("Debug server is not running.", s)
  | some _ =>
    let s1 := stopServer s
    (stoppedMessage, { s1 with debugModeActive := false, activeDebugUrl := none })

/-- `debug_clear.execute`: truncate the file to empty if it exists, otherwise
report that it does not exist (without creating it). -/
def debug_clear (s : PluginState) : String × PluginState :=
  match s.fs with
  | some _ =>
      ("Debug log cleared: " ++ getLogDisplayPath ++ "\n\nReady for fresh debug data.",
        { s with fs := some "" })
  | none => ("Debug log does not exist yet: " ++ getLogDisplayPath, s)

/-- The ASCII whitespace characters stripped by JavaScript `String.trim`
(tab, LF, VT, FF, CR, space). -/
def jsWhitespace (c : Char) : Bool :=
  c == '\t' || c == '\n' || c == '\x0b' || c == '\x0c' || c == '\r' || c == ' '

/-- JavaScript `s.trim()`: drop whitespace from both ends. -/
def jsTrim (s : String) : String :=
  String.mk (((s.data.dropWhile jsWhitespace).reverse.dropWhile
    jsWhitespace).reverse)

def splitLinesChars : List Char → List (List Char)
  | [] => [[]]
  | c :: rest =>
    if c == '\n' then [] :: splitLinesChars rest
    else
      match splitLinesChars rest with
      | [] => [[c]]
      | cur :: more => (c :: cur) :: more

/-- JavaScript `s.split("\n")`: the chunks between newline separators
(the empty string splits to `[""]`, as in JS). -/
def jsSplitLines (s : String) : List String :=
  (splitLinesChars s.data).map String.mk

/-- `content.trim().split("\n").filter(Boolean)` from `debug_read.execute`
(`Boolean` keeps exactly the non-empty strings). -/
def linesOf (content : String) : List String :=
  (jsSplitLines (jsTrim content)).filter (fun l => l != "")

/-- JavaScript `lines.slice(-t)` for a positive integer `t`: the last
`min t (length)` elements. -/
def jsSliceNeg (l : List String) (t : Int) : List String :=
  l.drop (l.length - t.toNat)

/-- The list `output` computed by `debug_read.execute`: the guard
`args.tail && args.tail > 0` is number-truthiness of `tail` followed by the
positivity test. -/
def readLogLines (content : String) (tail : Option Int) : List String :=
  let lines := linesOf content
  match tail with
  | some t => if t != 0 ∧ 0 < t then jsSliceNeg lines t else lines
  | none => lines

def eqSeparator : String := String.mk (List.replicate 50 '=')

/-- `debug_read.execute`: distinct messages for a missing file and an empty
line list; otherwise the formatted log view over `readLogLines`. -/
def debug_read (tailArg : Option Int) (s : PluginState) : String :=
  match s.fs with
  | none => "No debug log yet.\n\n**Tip:** Make sure fetch() calls are in place and the user has reproduced the issue."
  | some content =>
    let lines := linesOf content
    if lines.length = 0 then
      "Debug log is empty.\n\n**Tip:** The instrumented code paths may not have been executed. Ask the user to reproduce the issue."
    else
      let output := readLogLines content tailArg
      String.intercalate "\n"
        [ "# Debug Log (" ++ toString output.length ++ " entries)",
          eqSeparator,
          "",
          String.intercalate "\n" output,
          "",
          eqSeparator,
          "**Analyze the above data to identify the issue.**" ]

/-- Modelled from the spec for comparison with `linesOf` (§4.2 `readAll`,
claim C9): the non-empty lines of the raw file content, in file order. -/
def fileNonEmptyLines (content : String) : List String :=
  (jsSplitLines content).filter (fun l => l != "")

/-- State of two in-flight `appendToLog` calls A and B racing on the single
log file. `bufA`/`bufB` hold the `existing` content each call captured at its
read phase (the `await file.text()` before the write). -/
structure RaceState where
  fs : Option String
  bufA : Option String
  bufB : Option String
deriving DecidableEq, Repr

/-- The two phases of `appendToLog` for each of the two calls. The `await`
between reading the existing content and `Bun.write` is the suspension point
that lets the event loop interleave them. -/
inductive RaceStep where
  | readA
  | writeA
  | readB
  | writeB

def raceStepRun (lineA lineB : String) : RaceStep → RaceState → RaceState
  | .readA, st => { st with bufA := some ((st.fs).getD "") }
  | .writeA, st => { st with fs := some (((st.bufA).getD "") ++ lineA) }
  | .readB, st => { st with bufB := some ((st.fs).getD "") }
  | .writeB, st => { st with fs := some (((st.bufB).getD "") ++ lineB) }

def raceRun (lineA lineB : String) (steps : List RaceStep) (st : RaceState) :
    RaceState :=
  steps.foldl (fun acc step => raceStepRun lineA lineB step acc) st

/-! Helper lemmas and sample states used by witnesses. -/

theorem truthy_of_getProp_some (b : JsValue) (key : String) (v : JsValue)
    (h : getProp b key = some v) : truthy b = true := by
  cases b <;> simp_all [getProp, truthy]

def sampleEnv : Env := ⟨none, fun _ => false, .ok 51000, .noUrl⟩

def sampleActiveState : PluginState :=
  ⟨some ⟨3000⟩, none, true, some "http://localhost:3000/debug", none, some ""⟩

def sampleInactiveState : PluginState := ⟨none, none, false, none, none, none⟩

def noTokenEnv : Env := ⟨none, fun _ => false, .ok 4000, .ok "https://x.ngrok.app"⟩

def tunnelFailEnv : Env := ⟨some "tok", fun _ => false, .ok 4000, .failure⟩

def probeEnvFree : Env := ⟨none, fun _ => false, .ok 51000, .noUrl⟩

def probeEnvBusy : Env := ⟨none, fun p => p == 3000, .ok 51000, .noUrl⟩

/-- Claim C1: `debug_start` while a session is Active returns the existing
effective URL and leaves the whole module state unchanged (no new server, no
new tunnel), and `debug_stop` while Inactive reports "Debug server is not
running." and leaves the state unchanged. -/
theorem start_when_active_and_stop_when_inactive_are_idempotent
    (env : Env) (argPort : Option Nat) (s : PluginState) (srv : ServerHandle)
    (h : s.server = some srv) (s2 : PluginState) (h2 : s2.server = none) :
    debug_start env argPort s
        = .ok (alreadyRunningMessage (effectiveUrl srv s.tunnel), s)
      ∧ debug_stop s2 = ("Debug server is not running.", s2) :=
  ⟨by simp [debug_start, h], by simp [debug_stop, h2]⟩

theorem start_stop_idempotence_witness :
    debug_start sampleEnv none sampleActiveState
        = .ok (alreadyRunningMessage (effectiveUrl ⟨3000⟩ sampleActiveState.tunnel),
            sampleActiveState)
      ∧ debug_stop sampleInactiveState
        = ("Debug server is not running.", sampleInactiveState) :=
  start_when_active_and_stop_when_inactive_are_idempotent sampleEnv none
    sampleActiveState ⟨3000⟩ rfl sampleInactiveState rfl

/-- Claim C2 (code bug): the naive read-then-write of `appendToLog` loses an
append when two ingest requests interleave across the await boundary. With the
schedule readA, readB, writeA, writeB starting from an empty log, the final
file holds only B's line: one line instead of two, and A's label is gone. -/
theorem concurrent_appends_lose_update :
    (raceRun (appendLine "T1" (.str "L1") none) (appendLine "T2" (.str "L2") none)
        [.readA, .readB, .writeA, .writeB] ⟨some "", none, none⟩).fs
      = some "[T2] L2\n"
  ∧ readLogLines "[T2] L2\n" none = ["[T2] L2"]
  ∧ (readLogLines "[T2] L2\n" none).length = 1
  ∧ ¬ ("[T1] L1" ∈ readLogLines "[T2] L2\n" none) := by decide

/-- Claim C3: for a POST to the ingest endpoint with an unparsable body, or a
parsed body whose `label` field is absent or the empty string, the server
responds 400 naming the missing field and the log file is unchanged; with a
non-empty string label it responds 200 `received:true` and performs exactly
one append of (label, data). (Labels are restricted to the route's declared
`label: string` schema; non-string labels are claim C10.) -/
theorem ingest_validates_label_and_appends_once
    (ts : String) (fs : Option String) (b : JsValue) (lbl : String)
    (hb : getProp b "label" = some (.str lbl)) (hne : lbl ≠ "")
    (b2 : JsValue)
    (hb2 : getProp b2 "label" = none ∨ getProp b2 "label" = some (.str "")) :
    serverFetch ts ⟨"POST", "/debug", none⟩ fs
        = (plainTextResponse "Missing required field: label" 400, fs)
  ∧ serverFetch ts ⟨"POST", "/debug", some b2⟩ fs
        = (plainTextResponse "Missing required field: label" 400, fs)
  ∧ serverFetch ts ⟨"POST", "/debug", some b⟩ fs
        = (jsonResponse (.obj [("received", .bool true)]) 200,
            some ((fs.getD "") ++ appendLine ts (.str lbl) (getProp b "data"))) := by
  refine ⟨by simp [serverFetch, config, defaultConfig, truthy], ?_, ?_⟩
  · cases htr : truthy b2
    · simp [serverFetch, config, defaultConfig, htr]
    · rcases hb2 with h | h
      · simp [serverFetch, config, defaultConfig, htr, h]
      · simp [serverFetch, config, defaultConfig, htr, h, truthy]
  · have htr := truthy_of_getProp_some b "label" (.str lbl) hb
    simp [serverFetch, config, defaultConfig, htr, hb, appendToLog]
    simp [truthy, hne]

theorem ingest_validation_witness :
    serverFetch "T" ⟨"POST", "/debug", none⟩ (some "")
        = (plainTextResponse "Missing required field: label" 400, some "")
  ∧ serverFetch "T" ⟨"POST", "/debug", some (.obj [])⟩ (some "")
        = (plainTextResponse "Missing required field: label" 400, some "")
  ∧ serverFetch "T" ⟨"POST", "/debug",
        some (.obj [("label", .str "hello"), ("data", .num 7)])⟩ (some "")
        = (jsonResponse (.obj [("received", .bool true)]) 200,
            some (((some "" : Option String).getD "")
              ++ appendLine "T" (.str "hello")
                (getProp (.obj [("label", .str "hello"), ("data", .num 7)]) "data"))) :=
  ingest_validates_label_and_appends_once "T" (some "")
    (.obj [("label", .str "hello"), ("data", .num 7)]) "hello" rfl (by decide)
    (.obj []) (Or.inl rfl)

/-- Claim C4 (code bug): the plugin's fetch handler has no CORS handling at
all — a pre-flight OPTIONS request (any path) falls through to the 404 branch
instead of a 204, and no response (health, ingest success, 400, 404) carries
an Access-Control-Allow-Origin header. -/
theorem options_request_gets_404_and_no_cors_headers :
    serverFetch "T" ⟨"OPTIONS", "/debug", none⟩ (some "")
        = (plainTextResponse "Not found" 404, some "")
  ∧ serverFetch "T" ⟨"OPTIONS", "/health", none⟩ (some "")
        = (plainTextResponse "Not found" 404, some "")
  ∧ (plainTextResponse "Not found" 404).status ≠ 204
  ∧ (serverFetch "T" ⟨"OPTIONS", "/debug", none⟩ (some "")).1.headers.lookup
        "Access-Control-Allow-Origin" = none
  ∧ (serverFetch "T" ⟨"GET", "/health", none⟩ (some "")).1.headers.lookup
        "Access-Control-Allow-Origin" = none
  ∧ (serverFetch "T" ⟨"POST", "/debug", some (.obj [("label", .str "x")])⟩
        (some "")).1.headers.lookup "Access-Control-Allow-Origin" = none
  ∧ (serverFetch "T" ⟨"POST", "/debug", none⟩ (some "")).1.headers.lookup
        "Access-Control-Allow-Origin" = none := by decide

/-- Claim C5 (code bug): with no token available `startTunnel` returns null
immediately (first conjunct, and a tokenless `debug_start` completes on the
local URL, third conjunct); but when the tunnel service fails, the exception
propagates out of `debug_start` — the start does NOT complete with the local
URL; it aborts, leaving the just-created server dangling in module state with
the mode flags still off (second conjunct). -/
theorem tunnel_failure_aborts_start :
    startTunnel noTokenEnv 4000 none sampleInactiveState
        = .ok (none, sampleInactiveState)
  ∧ debug_start tunnelFailEnv none sampleInactiveState
        = .error (.tunnelFailure, { sampleInactiveState with server := some ⟨4000⟩ })
  ∧ debug_start noTokenEnv none sampleInactiveState
        = .ok (startInstructions (localUrlOf 4000),
            { sampleInactiveState with
                server := some ⟨4000⟩, debugModeActive := true,
                activeDebugUrl := some (localUrlOf 4000) }) :=
  ⟨rfl, rfl, rfl⟩

/-- Claim C6: an appended record is `[<timestamp>] <label>\n` without data and
`[<timestamp>] <label> | <JSON data>\n` with data, written at the end of the
file, and for any timestamp/label/data the data-omitted form is strictly
shorter than the data-present form. -/
theorem append_line_format_and_shorter_without_data
    (ts lbl : String) (d : JsValue) (fs : Option String) (d2 : Option JsValue) :
    appendLine ts (.str lbl) none = "[" ++ ts ++ "] " ++ lbl ++ "\n"
  ∧ appendLine ts (.str lbl) (some d)
      = "[" ++ ts ++ "] " ++ lbl ++ " | " ++ jsonSerialize d ++ "\n"
  ∧ appendToLog fs ts (.str lbl) d2
      = some ((fs.getD "") ++ appendLine ts (.str lbl) d2)
  ∧ (appendLine ts (.str lbl) none).length
      < (appendLine ts (.str lbl) (some d)).length := by
  refine ⟨rfl, rfl, rfl, ?_⟩
  simp [appendLine, jsToString, String.length_append]
  have h1 : (" | " : String).length = 3 := rfl
  omega

/-- Claim C7: `debug_stop` never deletes or truncates the log file — the file
state (and hence what `debug_read` returns) is untouched by stop — while
`debug_clear` truncates an existing file to empty (after which the read lines
are the empty sequence) and, when the file was never created, reports
"does not exist yet" without creating it. -/
theorem stop_preserves_log_and_clear_truncates
    (s sc sn : PluginState) (c : String)
    (hc : sc.fs = some c) (hn : sn.fs = none) :
    (debug_stop s).2.fs = s.fs
  ∧ readLogLines (((debug_stop s).2.fs).getD "") none
      = readLogLines ((s.fs).getD "") none
  ∧ (debug_clear sc).2.fs = some ""
  ∧ readLogLines "" none = []
  ∧ debug_clear sn
      = ("Debug log does not exist yet: " ++ getLogDisplayPath, sn) := by
  have hstop : (debug_stop s).2.fs = s.fs := by
    cases h : s.server with
    | none => simp [debug_stop, h]
    | some srv => cases ht : s.tunnel <;> simp [debug_stop, stopServer, h, ht]
  refine ⟨hstop, by rw [hstop], ?_, rfl, ?_⟩
  · simp [debug_clear, hc]
  · simp [debug_clear, hn]

theorem stop_clear_witness :
    (debug_stop sampleActiveState).2.fs = sampleActiveState.fs
  ∧ readLogLines (((debug_stop sampleActiveState).2.fs).getD "") none
      = readLogLines ((sampleActiveState.fs).getD "") none
  ∧ (debug_clear sampleActiveState).2.fs = some ""
  ∧ readLogLines "" none = []
  ∧ debug_clear sampleInactiveState
      = ("Debug log does not exist yet: " ++ getLogDisplayPath,
          sampleInactiveState) :=
  stop_preserves_log_and_clear_truncates sampleActiveState sampleActiveState
    sampleInactiveState "" rfl rfl

/-- Claim C8: `findAvailablePort` returns the preferred port unchanged when it
is given and the in-use probe reports it free; when the probe reports it busy
it silently returns whatever ephemeral allocation yields, and it fails exactly
when ephemeral allocation itself fails. -/
theorem port_allocation_prefers_free_and_falls_back
    (env : Env) (p : Nat) (hfree : env.busy p = false)
    (env2 : Env) (q : Nat) (hbusy : env2.busy q = true) :
    findAvailablePort env (some p) = .ok p
  ∧ findAvailablePort env2 (some q) = env2.ephemeral
  ∧ (findAvailablePort env2 (some q) = .error ()
      ↔ env2.ephemeral = .error ()) := by
  have h2 : findAvailablePort env2 (some q) = env2.ephemeral := by
    simp [findAvailablePort, isPortInUse, hbusy]
  exact ⟨by simp [findAvailablePort, isPortInUse, hfree], h2, by rw [h2]⟩

theorem port_allocation_witness :
    findAvailablePort probeEnvFree (some 4242) = .ok 4242
  ∧ findAvailablePort probeEnvBusy (some 3000) = probeEnvBusy.ephemeral
  ∧ (findAvailablePort probeEnvBusy (some 3000) = .error ()
      ↔ probeEnvBusy.ephemeral = .error ()) :=
  port_allocation_prefers_free_and_falls_back probeEnvFree 4242 rfl
    probeEnvBusy 3000 rfl

/-- Claim C9 counterexample: the code computes its lines from the
whitespace-trimmed content, so for the file "A \n" (one non-empty line "A ")
`debug_read` returns the line "A", which is not a line of the file: the
read lines are not "exactly the non-empty lines of the file". -/
theorem read_trims_edge_whitespace_counterexample :
    readLogLines "A \n" none = ["A"]
  ∧ fileNonEmptyLines "A \n" = ["A "]
  ∧ readLogLines "A \n" none ≠ fileNonEmptyLines "A \n" := by decide

/-- Claim C9 (amended): `debug_read` computes its line list from the
whitespace-TRIMMED file content, split on newlines with empty lines removed;
with tail > 0 it returns exactly the last `min tail count` of those lines, in
order (a suffix — all of them when fewer than tail exist), and with tail
absent or ≤ 0 it returns all of them. -/
theorem read_tail_slices_trimmed_lines (content : String) (t tn : Int)
    (ht : 0 < t) (htn : tn ≤ 0) :
    readLogLines content (some t) <:+ linesOf content
  ∧ (readLogLines content (some t)).length
      = min t.toNat (linesOf content).length
  ∧ readLogLines content none = linesOf content
  ∧ readLogLines content (some tn) = linesOf content
  ∧ linesOf content
      = (jsSplitLines (jsTrim content)).filter (fun l => l != "") := by
  have hval : readLogLines content (some t) = jsSliceNeg (linesOf content) t := by
    simp [readLogLines, ht, bne_iff_ne, ht.ne']
  have hneg : readLogLines content (some tn) = linesOf content := by
    have hno : ¬ ((tn != 0) = true ∧ 0 < tn) := by
      rintro ⟨h1, h2⟩; omega
    simp only [readLogLines]
    rw [if_neg hno]
  refine ⟨?_, ?_, rfl, hneg, rfl⟩
  · rw [hval]
    exact ⟨(linesOf content).take ((linesOf content).length - t.toNat),
      List.take_append_drop _ _⟩
  · rw [hval]
    simp [jsSliceNeg]
    omega

theorem read_tail_witness :
    readLogLines "A\nB\nC\n" (some 2) <:+ linesOf "A\nB\nC\n"
  ∧ (readLogLines "A\nB\nC\n" (some 2)).length
      = min (Int.toNat 2) (linesOf "A\nB\nC\n").length
  ∧ readLogLines "A\nB\nC\n" none = linesOf "A\nB\nC\n"
  ∧ readLogLines "A\nB\nC\n" (some (-1)) = linesOf "A\nB\nC\n"
  ∧ linesOf "A\nB\nC\n"
      = (jsSplitLines (jsTrim "A\nB\nC\n")).filter (fun l => l != "") :=
  read_tail_slices_trimmed_lines "A\nB\nC\n" 2 (-1) (by decide) (by decide)

/-- Claim C10: the ingest label check is JavaScript truthiness, not a
non-empty-string test: any truthy label value — including the number 42 or an
object — is accepted with 200 and appended (stringified into the line), and
any falsy label ("", 0, false, null) is rejected with 400 and nothing is
appended. -/
theorem label_validation_is_truthiness
    (ts : String) (fs : Option String) (b v : JsValue)
    (hb : getProp b "label" = some v) :
    (truthy v = true →
      serverFetch ts ⟨"POST", "/debug", some b⟩ fs
        = (jsonResponse (.obj [("received", .bool true)]) 200,
            some ((fs.getD "") ++ appendLine ts v (getProp b "data"))))
  ∧ (truthy v = false →
      serverFetch ts ⟨"POST", "/debug", some b⟩ fs
        = (plainTextResponse "Missing required field: label" 400, fs))
  ∧ truthy (.num 42) = true ∧ truthy (.obj []) = true ∧ truthy (.arr []) = true
  ∧ truthy (.str "") = false ∧ truthy (.num 0) = false
  ∧ truthy (.bool false) = false ∧ truthy .null = false
  ∧ appendLine "T" (.num 42) none = "[T] 42\n" := by
  have htr := truthy_of_getProp_some b "label" v hb
  refine ⟨?_, ?_, by decide⟩
  · intro hv
    simp [serverFetch, config, defaultConfig, htr, hb, hv, appendToLog]
  · intro hv
    simp [serverFetch, config, defaultConfig, htr, hb, hv]

theorem label_truthiness_witness :
    serverFetch "T" ⟨"POST", "/debug", some (.obj [("label", .num 42)])⟩ none
      = (jsonResponse (.obj [("received", .bool true)]) 200,
          some (((none : Option String).getD "")
            ++ appendLine "T" (.num 42)
              (getProp (.obj [("label", .num 42)]) "data"))) :=
  (label_validation_is_truthiness "T" none (.obj [("label", .num 42)])
    (.num 42) rfl).1 (by decide)
